import Mathlib

/-!
Verification of the `ota-proxy` flight-search adapter.

The repository is a Node/Express proxy that intercepts `iatalocal` flight
search requests, maps the legacy PHP-style request to the supplier format,
calls the supplier, and maps the supplier response back.  The repository
contains the current server (`src/index.js`) together with several earlier
revisions of the same server (`src/unnamed/part_000` … `part_005`).

This file gives a shallow embedding of the mapping functions the claims
concern:
  * `convertDateToDDMonYYYY` (src/index.js:80-87) and the earlier variant
    `convertDateToDDMonYYYYv` (part_002:94-103, part_005:104-113);
  * `formatDuration` (src/index.js:89-94) and the earlier variant
    `formatDurationV` (part_002:125-130, part_005:135-140);
  * `mapPhpToIataLocalRequest` (src/index.js:98-115, identical in
    part_002/part_005);
  * `calculatePrice` (part_005:145-163);
  * `createPhpSegments` in its three revisions (src/index.js:123-204,
    part_002:132-176, part_005:165-210);
  * `mapIataLocalToPhpResponse` (src/index.js:206-237) and the single-map
    revision (part_004:106-171);
  * the `smartApiHandler` orchestrator (src/index.js:44-63).

JavaScript dynamic values are modelled as follows: a possibly-`undefined`
string is `Option String`; a possibly-`undefined` / NaN number is
`Option ℚ`; machine floating point is modelled by exact rationals (the
claims only concern the arithmetic formulas, not IEEE rounding noise).
All string manipulation is done on `List Char` with structurally recursive
functions so every definition evaluates by kernel reduction.
-/

namespace OtaProxy

/- ## JavaScript primitive operations -/

/-- Model of JavaScript `String.prototype.split` restricted to a non-empty
separator: `splitOnce sep l` finds the first occurrence of `sep` in `l` and
returns the part before it and the part after it, `none` when `sep` does not
occur. -/
def splitOnce (sep : List Char) : List Char → Option (List Char × List Char)
  | [] => none
  | c :: rest =>
    if sep.isPrefixOf (c :: rest) then some ([], (c :: rest).drop sep.length)
    else
      match splitOnce sep rest with
      | none => none
      | some (pre, post) => some (c :: pre, post)

/-- Fuelled worker for `jsSplit`; the fuel `l.length + 1` always suffices for
a non-empty separator because every match consumes at least one character. -/
def jsSplitF : Nat → List Char → List Char → List (List Char)
  | 0, _, l => [l]
  | Nat.succ fuel, sep, l =>
    match splitOnce sep l with
    | none => [l]
    | some (pre, post) => pre :: jsSplitF fuel sep post

/-- Model of JavaScript `s.split(sep)` for a non-empty separator `sep`:
`"2024-03-05".split('-') = ["2024","03","05"]`, `"".split('-') = [""]`,
`"-".split('-') = ["",""]`. -/
def jsSplit (sep l : List Char) : List (List Char) :=
  jsSplitF (l.length + 1) sep l

/-- Model of JavaScript whitespace (`\s`, and the set trimmed by
`String.prototype.trim`); `Char.isWhitespace` covers space, tab, CR and LF,
which is adequate for the data handled here. -/
def jsWs (c : Char) : Bool := c.isWhitespace

/-- Model of JavaScript `String.prototype.trim`. -/
def trimL (l : List Char) : List Char :=
  ((l.dropWhile jsWs).reverse.dropWhile jsWs).reverse

/-- Model of JavaScript `s.replace(pat, '')` for a *string* pattern, which
replaces only the first occurrence: remove the first occurrence of `pat`. -/
def jsRemoveFirst (pat : List Char) : List Char → List Char
  | [] => []
  | c :: rest =>
    if pat.isPrefixOf (c :: rest) then (c :: rest).drop pat.length
    else c :: jsRemoveFirst pat rest

/-- Does `pat` occur as a contiguous sublist of `l`?  (Used to state when
`jsRemoveFirst` is the identity.) -/
def containsSub (pat : List Char) : List Char → Bool
  | [] => pat.isEmpty
  | c :: rest => pat.isPrefixOf (c :: rest) || containsSub pat rest

/-- Model of JavaScript `s.substring(a, b)` for `a ≤ b` (characters at
indices `[a, b)`, truncated at the end of the string). -/
def substrL (l : List Char) (a b : Nat) : List Char :=
  (l.drop a).take (b - a)

/-- Model of JavaScript `String(n).padStart(2, '0')`: pad to length 2.  Note
that `String(-5).padStart(2,'0') = "-5"` — the sign counts towards the
length, exactly as in JavaScript. -/
def padStart2 (s : String) : String :=
  if s.length = 0 then "00"
  else if s.length = 1 then "0" ++ s
  else s

/-- Model of JavaScript `parseInt(s, 10)`: skip leading whitespace, read an
optional sign and then a non-empty run of decimal digits; `none` models the
`NaN` result. -/
def jsParseInt (s : String) : Option Int :=
  let l := s.toList.dropWhile jsWs
  let signAndRest : Bool × List Char :=
    match l with
    | '-' :: rest => (true, rest)
    | '+' :: rest => (false, rest)
    | _ => (false, l)
  let digits := signAndRest.2.takeWhile Char.isDigit
  if digits.isEmpty then none
  else
    let n : Nat := digits.foldl (fun acc c => acc * 10 + (c.toNat - '0'.toNat)) 0
    some (if signAndRest.1 then -(n : Int) else (n : Int))

/-- JavaScript `x || d` for a possibly-`undefined` string `x` (the empty
string is falsy). -/
def jsOrStr (x : Option String) (d : String) : String :=
  match x with
  | none => d
  | some s => if s = "" then d else s

/-- JavaScript `x || d` for a possibly-`undefined` number `x` (`0` is
falsy). -/
def jsOrQ (x : Option ℚ) (d : ℚ) : ℚ :=
  match x with
  | none => d
  | some v => if v = 0 then d else v

/-- JavaScript truthiness of a possibly-`undefined` string. -/
def jsTruthyStr (x : Option String) : Bool :=
  match x with
  | none => false
  | some s => !(s = "")

/-- JavaScript `Math.round`: round half towards positive infinity. -/
def jsRound (q : ℚ) : Int := ⌊q + 1/2⌋

/-- JavaScript number-to-integer truncation (the semantics of `%` on
numbers uses truncated division). -/
def jsTrunc (q : ℚ) : Int := if q < 0 then -⌊-q⌋ else ⌊q⌋

/-- JavaScript `a % b` on numbers: truncated remainder, sign of the
dividend (`-5 % 60 = -5`). -/
def jsModQ (a b : ℚ) : ℚ := a - b * (jsTrunc (a / b) : ℚ)

/-- Decimal rendering of an integer, as JavaScript `String(n)` produces for
an integral number. -/
def intToStr (i : Int) : String := toString i

/-- Rendering of a JavaScript number.  Faithful for integral values (the
only values any claim exercises); a non-integral rational is rendered as
`num/den`, standing in for JavaScript's decimal float formatting, which is
not modelled. -/
def jsNumToString (q : ℚ) : String :=
  if q.den = 1 then intToStr q.num
  else intToStr q.num ++ "/" ++ toString q.den

/-- Model of JavaScript `x.toFixed(2)` on an exact rational: round to two
decimal places (half away from zero) and render with exactly two decimals. -/
def toFixed2 (q : ℚ) : String :=
  let n : Int := if q < 0 then -⌊(-q) * 100 + 1/2⌋ else ⌊q * 100 + 1/2⌋
  let a : Nat := n.natAbs
  (if n < 0 then "-" else "") ++ toString (a / 100) ++ "." ++ padStart2 (toString (a % 100))

/- ## Dates: `new Date(s)` and differences

`src/index.js` subtracts `new Date(...)` values of supplier timestamps.
The supplier sends ISO-8601-like `YYYY-MM-DDTHH:MM[:SS]` strings; we model
the parse as UTC (a constant timezone offset cancels in every difference
the source computes) and any other shape as the invalid date (`none`,
whose arithmetic yields NaN). -/

/-- Days since the Unix epoch of a civil date (standard era-based Gregorian
computation; integer divisions truncate, operands are kept non-negative). -/
def daysFromCivil (y : Int) (m d : Nat) : Int :=
  let yy : Int := if m ≤ 2 then y - 1 else y
  let era : Int := (if 0 ≤ yy then yy else yy - 399) / 400
  let yoe : Int := yy - era * 400
  let mp : Int := if 2 < m then (m : Int) - 3 else (m : Int) + 9
  let doy : Int := (153 * mp + 2) / 5 + (d : Int) - 1
  let doe : Int := yoe * 365 + yoe / 4 - yoe / 100 + doy
  era * 146097 + doe - 719468

/-- Parse a run of digits of an exact length. -/
def parseDigits (l : List Char) : Option Nat :=
  if l ≠ [] ∧ l.all Char.isDigit then
    some (l.foldl (fun acc c => acc * 10 + (c.toNat - '0'.toNat)) 0)
  else none

/-- Model of `new Date(s).getTime()` for the supplier's
`YYYY-MM-DDTHH:MM[:SS]` (or date-only) timestamps, in milliseconds; `none`
models an invalid date (NaN timestamp). -/
def jsDateParse (s : String) : Option Int :=
  let parts := jsSplit ['T'] s.toList
  let datePart := parts.getD 0 []
  let timePart := parts.getD 1 []
  if 2 < parts.length then none
  else
    match jsSplit ['-'] datePart with
    | [ys, ms, ds] =>
      match parseDigits ys, parseDigits ms, parseDigits ds with
      | some y, some mo, some d =>
        if 1 ≤ mo ∧ mo ≤ 12 ∧ 1 ≤ d ∧ d ≤ 31 then
          let hms := if parts.length = 1 then some (0, 0, 0) else
            match jsSplit [':'] timePart with
            | [hs, mins] =>
              match parseDigits hs, parseDigits mins with
              | some h, some mi => if h ≤ 23 ∧ mi ≤ 59 then some (h, mi, 0) else none
              | _, _ => none
            | [hs, mins, ss] =>
              match parseDigits hs, parseDigits mins, parseDigits ss with
              | some h, some mi, some sec =>
                if h ≤ 23 ∧ mi ≤ 59 ∧ sec ≤ 59 then some (h, mi, sec) else none
              | _, _, _ => none
            | _ => none
          match hms with
          | some (h, mi, sec) =>
            some ((((daysFromCivil (y : Int) mo d) * 24 + (h : Int)) * 60 + (mi : Int)) * 60 * 1000
                  + (sec : Int) * 1000)
          | none => none
        else none
      | _, _, _ => none
    | _ => none

/-- Model of `(new Date(b) - new Date(a)) / (1000 * 60)`: difference of two
timestamps in minutes; `none` models NaN. -/
def dateDiffMinutes (a b : String) : Option ℚ :=
  match jsDateParse a, jsDateParse b with
  | some ta, some tb => some (((tb - ta : Int) : ℚ) / 60000)
  | _, _ => none

/- ## Data model -/

/-- One leg (`fLegs` entry) of a supplier trip record. -/
structure Leg where
  xFlight : String
  xClass : String
  xACode : String
  xFrom : String
  xDest : String
  DTime : String
  ATime : String
deriving DecidableEq

/-- A raw supplier trip record (union of the fields the revisions read).
`Option` fields model possibly-`undefined` members; `fFare` is taken to be
a present number (every revision reads it) and `fBag` a present string. -/
structure Trip where
  fSoft : String
  fGDSid : String
  fAMYid : Option String
  fReturn : Bool
  fLegs : List Leg
  fFare : ℚ
  fBFare : Option ℚ
  fDursec : Option ℚ
  fDur : String
  fBag : String
  fRefund : String
  fClsNam : Option String
  fModel : Option String
  fTransit1 : Option String
  fTransit2 : Option String
  fTransitAP1 : Option String
  fTransitAP2 : Option String
  csource : Option String
  stAirline : String
  stAirCode : String
  xFrom : String
  xDest : String
deriving DecidableEq

/-- The member `iataResponse.data` — holds the `Trips` collection (`none` models an
absent member). -/
structure IataData where
  Trips : Option (List Trip)
deriving DecidableEq

/-- The supplier's top-level response body. -/
structure IataResponse where
  success : Bool
  data : Option IataData
deriving DecidableEq

/-- The legacy PHP-style search request body (the fields the adapter
reads).  Counts arrive as strings; the two date fields may be absent. -/
structure PhpRequest where
  origin : String
  destination : String
  triptypename : String
  departure_date : Option String
  return_date : Option String
  adults : String
  childrens : String
  infants : String
deriving DecidableEq

/-- The request payload sent to the iatalocal supplier
(src/index.js:101-114). -/
structure IataLocalRequest where
  is_combo : Nat
  CMND : String
  TRIP : String
  FROM : String
  DEST : String
  JDT : String
  RDT : String
  ACLASS : String
  AD : Int
  CH : Int
  INF : Int
  Umrah : String
deriving DecidableEq

/- ## Helper functions (src/index.js:80-94 and the earlier revisions) -/

/-- The fixed month-abbreviation table (src/index.js:84). -/
def monthsTable : List String :=
  ["Jan", "Feb", "Mar", "Apr", "May", "Jun", "Jul", "Aug", "Sep", "Oct", "Nov", "Dec"]

/-- Model of `yyyyMmDd.split('-')` — the hyphen-separated parts of a date string. -/
def dateParts (s : String) : List (List Char) := jsSplit ['-'] s.toList

/-- The `year`, `month` and `day` components
(`const [year, month, day] = yyyyMmDd.split('-');`). -/
def yearPart (s : String) : String := ((dateParts s).getD 0 []).asString

def monthPart (s : String) : String := ((dateParts s).getD 1 []).asString

def dayPart (s : String) : String := ((dateParts s).getD 2 []).asString

/-- Model of `parseInt(month, 10)` (`none` = NaN). -/
def monthNum (s : String) : Option Int := jsParseInt (monthPart s)

/-- The function `convertDateToDDMonYYYY` as in src/index.js:80-87.  The input is
`Option String`; `none` models `undefined` or any non-string value (both
fail the `!yyyyMmDd || typeof yyyyMmDd !== 'string'` test). -/
def convertDateToDDMonYYYY (yyyyMmDd : Option String) : String :=
  match yyyyMmDd with
  | none => ""
  | some s =>
    if s = "" then ""
    else if (dateParts s).length ≠ 3 then ""
    else
      -- const monthIndex = parseInt(month, 10) - 1;
      -- if (isNaN(monthIndex) || monthIndex < 0 || monthIndex > 11) return "";
      match monthNum s with
      | none => ""
      | some m =>
        if m - 1 < 0 ∨ 11 < m - 1 then ""
        else dayPart s ++ "-" ++ monthsTable.getD (m - 1).toNat "" ++ "-" ++ yearPart s

/-- The earlier revision of `convertDateToDDMonYYYY` (part_002:94-103,
part_005:104-113).  It lacks the `isNaN(monthIndex)` guard: when
`parseInt(month, 10)` is NaN, both comparisons `monthIndex < 0` and
`monthIndex > 11` are false (NaN compares false), `months[NaN]` is
`undefined`, and the template literal renders it as the text
`"undefined"`. -/
def convertDateToDDMonYYYYv (yyyyMmDd : Option String) : String :=
  match yyyyMmDd with
  | none => ""
  | some s =>
    if s = "" then ""
    else if (dateParts s).length ≠ 3 then ""
    else
      match monthNum s with
      | none => dayPart s ++ "-undefined-" ++ yearPart s
      | some m =>
        if m - 1 < 0 ∨ 11 < m - 1 then ""
        else dayPart s ++ "-" ++ monthsTable.getD (m - 1).toNat "" ++ "-" ++ yearPart s

/-- The function `formatDuration` as in src/index.js:89-94, with the
`isNaN(totalMinutes) || totalMinutes < 0` guard.  `none` models a NaN /
`undefined` argument. -/
def formatDuration (totalMinutes : Option ℚ) : String :=
  match totalMinutes with
  | none => "00:00"
  | some q =>
    if q < 0 then "00:00"
    else
      let hours : Int := ⌊q / 60⌋
      let minutes : ℚ := jsModQ q 60
      padStart2 (intToStr hours) ++ ":" ++ padStart2 (jsNumToString minutes)

/-- The earlier revision of `formatDuration` (part_002:125-130,
part_005:135-140): only NaN is guarded, a negative input flows through
`Math.floor` and `%`. -/
def formatDurationV (totalMinutes : Option ℚ) : String :=
  match totalMinutes with
  | none => "00:00"
  | some q =>
    let hours : Int := ⌊q / 60⌋
    let minutes : ℚ := jsModQ q 60
    padStart2 (intToStr hours) ++ ":" ++ padStart2 (jsNumToString minutes)

/- ## Request mapping (src/index.js:98-115, identical in part_002:105-123
and part_005:115-133) -/

/-- Model of `(field.split(' - ')[1] || field).trim()` — the airport-code
extraction applied to `origin` and `destination`. -/
def airportCode (field : String) : String :=
  let parts := jsSplit [' ', '-', ' '] field.toList
  let chosen := match parts.getD 1 [] with
    | [] => field.toList
    | l => l
  (trimL chosen).asString

/-- The function `mapPhpToIataLocalRequest` as in src/index.js:98-115. -/
def mapPhpToIataLocalRequest (phpRequest : PhpRequest) : IataLocalRequest :=
  { is_combo := 0
    CMND := "_FLIGHTSEARCH_"
    TRIP := if phpRequest.triptypename = "round" then "RT" else "OW"
    FROM := airportCode phpRequest.origin
    DEST := airportCode phpRequest.destination
    JDT := convertDateToDDMonYYYY phpRequest.departure_date
    RDT := if jsTruthyStr phpRequest.return_date
           then convertDateToDDMonYYYY phpRequest.return_date else ""
    ACLASS := "Y"
    AD := (jsParseInt phpRequest.adults).getD 0
    CH := (jsParseInt phpRequest.childrens).getD 0
    INF := (jsParseInt phpRequest.infants).getD 0
    Umrah := "0" }

/- ## Price calculation (part_005:145-163) -/

/-- The third `' - '`-separated component of a location field,
`field.split(' - ')[2] || ""` (an absent or empty component is `""`). -/
def countryComponent (field : String) : String :=
  ((jsSplit [' ', '-', ' '] field.toList).getD 2 []).asString

/-- The function `calculatePrice` as in part_005:145-163: domestic (equal embedded
country codes) ⇒ `round(fare * 0.97 + 100)`; international ⇒
`round(fare * 0.95 + max(1000, fare * 0.02))`. -/
def calculatePrice (trip : Trip) : Int :=
  let basePrice : ℚ := jsOrQ (some trip.fFare) 0
  let fromCountry := countryComponent trip.xFrom
  let toCountry := countryComponent trip.xDest
  let isDomestic := fromCountry = toCountry
  let discountedPrice : ℚ :=
    if isDomestic then basePrice * (97/100) + 100
    else
      let fee := max 1000 (basePrice * (2/100))
      basePrice * (95/100) + fee
  jsRound discountedPrice

/- ## Segment creation, revision of part_002:132-176 and part_005:165-210 -/

/-- The `booking_data` object of the part_002/part_005 segment shape. -/
structure BookingData5 where
  booking_id : Option String
  fSoft : String
  fGDSid : String
  transit1 : String
  transit2 : String
  transit_ap1 : String
  transit_ap2 : String
  aircraft_model : String
  source : String
deriving DecidableEq

/-- The segment shape produced by part_002:132-176 and part_005:165-210
(the two revisions differ only in how the price fields are filled). -/
structure Segment5 where
  img : String
  flight_no : String
  airline : String
  «class» : String
  baggage : String
  cabin_baggage : String
  departure_airport : String
  departure_time : String
  departure_date : String
  departure_code : String
  arrival_airport : String
  arrival_date : String
  arrival_time : String
  arrival_code : String
  duration_time : String
  total_duration : String
  currency : String
  actual_currency : String
  price : String
  actual_price : String
  adult_price : String
  child_price : String
  infant_price : String
  booking_data : BookingData5
  supplier : String
  type : String
  refundable : Bool
  redirect_url : String
  color : String
deriving DecidableEq

/-- The fields of the part_002/part_005 segment that do not involve the
price; shared between the two revisions. -/
def mkSegment5 (trip : Trip) (leg : Leg) (formattedDuration : String)
    (price actual_price adult_price child_price infant_price : String) : Segment5 :=
  { img := trip.stAirCode
    flight_no := leg.xFlight
    airline := trip.stAirline
    «class» := leg.xClass
    baggage := (trimL (jsRemoveFirst "Baggage:".toList trip.fBag.toList)).asString
    cabin_baggage := "7 Kg"
    departure_airport := leg.xFrom
    departure_time := (substrL leg.DTime.toList 11 16).asString
    departure_date := (substrL leg.DTime.toList 0 10).asString
    departure_code := leg.xFrom
    arrival_airport := leg.xDest
    arrival_date := (substrL leg.ATime.toList 0 10).asString
    arrival_time := (substrL leg.ATime.toList 11 16).asString
    arrival_code := leg.xDest
    duration_time := formattedDuration
    total_duration := formattedDuration
    currency := "BDT"
    actual_currency := "BDT"
    price := price
    actual_price := actual_price
    adult_price := adult_price
    child_price := child_price
    infant_price := infant_price
    booking_data :=
      { booking_id := trip.fAMYid
        fSoft := trip.fSoft
        fGDSid := trip.fGDSid
        transit1 := (trip.fTransit1).getD ""
        transit2 := (trip.fTransit2).getD ""
        transit_ap1 := (trip.fTransitAP1).getD ""
        transit_ap2 := (trip.fTransitAP2).getD ""
        aircraft_model := (trip.fModel).getD ""
        source := jsOrStr trip.csource "GDS" }
    supplier := "iatalocal"
    type := if trip.fReturn then "round" else "oneway"
    refundable := trip.fRefund != "NONREFUND"
    redirect_url := ""
    color := "#0d3981" }

/-- The function `createPhpSegments` as in part_005:165-210: the derived
`calculatePrice` fills `price`, `adult_price`, `child_price` and
`infant_price`; `actual_price` is `(trip.fBFare || trip.fFare || 0)`. -/
def createPhpSegments005 (trip : Trip) : List Segment5 :=
  let formattedDuration := formatDurationV trip.fDursec
  let finalPrice := calculatePrice trip
  trip.fLegs.map fun leg =>
    mkSegment5 trip leg formattedDuration
      (intToStr finalPrice)
      (jsNumToString (jsOrQ trip.fBFare (jsOrQ (some trip.fFare) 0)))
      (intToStr finalPrice)
      (intToStr finalPrice)
      (intToStr finalPrice)

/-- The function `createPhpSegments` as in part_002:132-176: the raw upstream
`trip.fFare` fills every price field. -/
def createPhpSegments002 (trip : Trip) : List Segment5 :=
  let formattedDuration := formatDurationV trip.fDursec
  trip.fLegs.map fun leg =>
    mkSegment5 trip leg formattedDuration
      (jsNumToString trip.fFare)
      (jsNumToString (jsOrQ (some trip.fFare) 0))
      (jsNumToString trip.fFare)
      (jsNumToString trip.fFare)
      (jsNumToString trip.fFare)

/- ## Segment creation, current revision (src/index.js:123-204) -/

/-- The object `pax_breakdown` — the counts use a bare `parseInt` (no `|| 0`), so a
non-numeric count is NaN (`none`), and NaN propagates into the total. -/
structure PaxBreakdown where
  adult : Option Int
  child : Option Int
  infant : Option Int
  total_passengers : Option Int
deriving DecidableEq

/-- The `taxes` object (src/index.js:136-140). -/
structure Taxes where
  base_fare : String
  tax : String
  total_fare : String
deriving DecidableEq

/-- The `fare_rules` object (src/index.js:141-144). -/
structure FareRules where
  refundable : Bool
  penalty_details : String
deriving DecidableEq

/-- One layover entry (src/index.js:165-168). -/
structure Layover where
  duration : String
  airport : String
deriving DecidableEq

/-- The `stop_details` object (src/index.js:153-156); `stop_count` is
`fLegs.length - 1`, which is `-1` for an empty leg array, hence `Int`. -/
structure StopDetails where
  stop_count : Int
  layovers : List Layover
deriving DecidableEq

/-- The `booking_data` object of the current segment shape
(src/index.js:197-201). -/
structure BookingDataIdx where
  booking_id : String
  gds_booking_id : String
  fare_source_key : String
deriving DecidableEq

/-- The segment shape produced by src/index.js:123-204 (shared data spread
into each per-leg record). -/
structure SegmentIdx where
  airline : String
  pax_breakdown : PaxBreakdown
  taxes : Taxes
  fare_rules : FareRules
  total_duration : String
  supplier : String
  type : String
  redirect_url : String
  color : String
  stop_details : StopDetails
  img : String
  flight_no : String
  «class» : String
  booking_class_code : String
  baggage : String
  cabin_baggage : String
  aircraft_model : String
  departure_airport : String
  departure_time : String
  departure_date : String
  departure_code : String
  arrival_airport : String
  arrival_date : String
  arrival_time : String
  arrival_code : String
  duration_time : String
  booking_data : BookingDataIdx
deriving DecidableEq

/-- The function `createPhpSegments` as in src/index.js:123-204. -/
def createPhpSegmentsIdx (trip : Trip) (originalPhpRequest : PhpRequest) : List SegmentIdx :=
  let totalFare : ℚ := jsOrQ (some trip.fFare) 0
  let baseFare : ℚ := jsOrQ trip.fBFare 0
  let adult := jsParseInt originalPhpRequest.adults
  let child := jsParseInt originalPhpRequest.childrens
  let infant := jsParseInt originalPhpRequest.infants
  let total : Option Int :=
    match adult, child, infant with
    | some a, some c, some i => some (a + c + i)
    | _, _, _ => none
  let stopCount : Int := (trip.fLegs.length : Int) - 1
  let layovers : List Layover :=
    if 0 < stopCount then
      (trip.fLegs.zip trip.fLegs.tail).map fun p =>
        { duration := formatDuration (dateDiffMinutes p.1.ATime p.2.DTime)
          airport := p.1.xDest }
    else []
  let stopDetails : StopDetails := { stop_count := stopCount, layovers := layovers }
  trip.fLegs.map fun leg =>
    { airline := trip.stAirline
      pax_breakdown :=
        { adult := adult, child := child, infant := infant, total_passengers := total }
      taxes :=
        { base_fare := toFixed2 baseFare
          tax := toFixed2 (totalFare - baseFare)
          total_fare := toFixed2 totalFare }
      fare_rules := { refundable := trip.fRefund != "NONREFUND", penalty_details := "" }
      total_duration := formatDuration trip.fDursec
      supplier := "iatalocal"
      type := if trip.fReturn then "round" else "oneway"
      redirect_url := ""
      color := "#FF5733"
      stop_details := stopDetails
      img := trip.stAirCode
      flight_no := leg.xFlight
      «class» := jsOrStr trip.fClsNam "N/A"
      booking_class_code := jsOrStr trip.fClsNam "N/A"
      baggage := (((jsRemoveFirst "Baggage:".toList
                     (jsOrStr (some trip.fBag) "N/A").toList).filter
                   (fun c => !jsWs c)).map Char.toUpper).asString
      cabin_baggage := "7KG"
      aircraft_model := jsOrStr trip.fModel "N/A"
      departure_airport := leg.xFrom
      departure_time := (substrL leg.DTime.toList 11 16).asString
      departure_date := (substrL leg.DTime.toList 0 10).asString
      departure_code := leg.xFrom
      arrival_airport := leg.xDest
      arrival_date := (substrL leg.ATime.toList 0 10).asString
      arrival_time := (substrL leg.ATime.toList 11 16).asString
      arrival_code := leg.xDest
      duration_time := formatDuration (dateDiffMinutes leg.DTime leg.ATime)
      booking_data :=
        { booking_id := jsOrStr trip.fAMYid trip.fGDSid
          gds_booking_id := trip.fGDSid
          fare_source_key := trip.fSoft } }

/- ## JavaScript `Map` (insertion-ordered, `set` overwrites in place) -/

/-- Model of `Map.prototype.set`: overwrite the value in place when the key exists
(a JS `Map` holds each key at most once, so replacing the first matching
entry is exact), append a fresh entry otherwise — JS `Map` preserves
first-insertion key order. -/
def mapSet {α : Type} : List (String × α) → String → α → List (String × α)
  | [], k, v => [(k, v)]
  | p :: rest, k, v => if p.1 == k then (k, v) :: rest else p :: mapSet rest k v

/-- Model of `Map.prototype.get` (`none` for a missing key, JS `undefined`). -/
def mapGet {α : Type} : List (String × α) → String → Option α
  | [], _ => none
  | p :: rest, k => if p.1 == k then some p.2 else mapGet rest k

/-- Model of `Map.prototype.has`. -/
def mapHas {α : Type} : List (String × α) → String → Bool
  | [], _ => false
  | p :: rest, k => p.1 == k || mapHas rest k

/- ## Response mapping, current revision (src/index.js:206-237) -/

/-- One itinerary of the adapter's output: `{ segments: [...] }` with one
(one-way) or two (round-trip) per-leg segment lists. -/
structure PhpItinerary where
  segments : List (List SegmentIdx)
deriving DecidableEq

/-- The composite round-trip pairing key,
``const key = `${trip.fSoft}-${trip.fGDSid}`;`` (src/index.js:221). -/
def tripKey (trip : Trip) : String := trip.fSoft ++ "-" ++ trip.fGDSid

/-- The `trips.forEach` loop of src/index.js:220-224: partition the trip
records into the outbound (`fReturn` false) and inbound (`fReturn` true)
maps, keyed by `tripKey`; `Map.set` keeps only the last record per key. -/
def buildFlightMaps (trips : List Trip) : List (String × Trip) × List (String × Trip) :=
  trips.foldl
    (fun maps trip =>
      if trip.fReturn then (maps.1, mapSet maps.2 (tripKey trip) trip)
      else (mapSet maps.1 (tripKey trip) trip, maps.2))
    ([], [])

/-- The body of the `outboundFlights.forEach` loop of src/index.js:227-234:
for an outbound entry `p`, if the inbound map has the same key, pair the
two trips' segment lists into one pushed itinerary; otherwise keep the
accumulator (the unmatched outbound half is dropped silently). -/
def pairStep (inboundFlights : List (String × Trip)) (originalPhpRequest : PhpRequest)
    (acc : List PhpItinerary) (p : String × Trip) : List PhpItinerary :=
  match mapGet inboundFlights p.1 with
  | some inboundTrip =>
    acc ++ [{ segments := [createPhpSegmentsIdx p.2 originalPhpRequest,
                           createPhpSegmentsIdx inboundTrip originalPhpRequest] }]
  | none => acc

/-- The function `mapIataLocalToPhpResponse` as in src/index.js:206-237. -/
def mapIataLocalToPhpResponse (iataResponse : IataResponse) (originalPhpRequest : PhpRequest) :
    List PhpItinerary :=
  -- if (!iataResponse.success || !iataResponse.data || !iataResponse.data.Trips) return [];
  if !iataResponse.success then []
  else
    match iataResponse.data with
    | none => []
    | some d =>
      match d.Trips with
      | none => []
      | some trips =>
        if originalPhpRequest.triptypename = "oneway" then
          trips.map fun trip => { segments := [createPhpSegmentsIdx trip originalPhpRequest] }
        else
          let maps := buildFlightMaps trips
          -- outboundFlights.forEach(...): push an itinerary for every
          -- outbound entry whose key the inbound map also has.
          maps.1.foldl (pairStep maps.2 originalPhpRequest) []

/- ## Response mapping, single-map revision (part_004:106-171) -/

/-- The `booking_data` of the part_004 segment shape. -/
structure BookingData4 where
  fSoft : String
  fGDSid : String
deriving DecidableEq

/-- The segment shape of part_004:124-152. -/
structure Seg004 where
  img : String
  flight_no : String
  airline : String
  «class» : String
  baggage : String
  cabin_baggage : String
  departure_airport : String
  departure_time : String
  departure_date : String
  departure_code : String
  arrival_airport : String
  arrival_date : String
  arrival_time : String
  arrival_code : String
  duration_time : String
  total_duration : String
  currency : String
  actual_currency : String
  price : String
  actual_price : String
  adult_price : String
  child_price : String
  infant_price : String
  booking_data : BookingData4
  supplier : String
  type : String
  refundable : Bool
deriving DecidableEq

/-- An itinerary of the part_004 revision: the fixed 2-slot leg array
`segments: [[], []]` (slot 0 outbound, slot 1 inbound). -/
structure Itin004 where
  segments : List Seg004 × List Seg004
deriving DecidableEq

/-- The per-leg segment record of part_004:124-152. -/
def mkSeg004 (trip : Trip) (leg : Leg) : Seg004 :=
  { img := "https://daisycon.io/images/airline/?width=300&height=150&color=ffffff&iata="
            ++ leg.xACode
    flight_no := leg.xFlight
    airline := trip.stAirline
    «class» := leg.xClass
    baggage := (trimL (jsRemoveFirst "Baggage:".toList trip.fBag.toList)).asString
    cabin_baggage := "N/A"
    departure_airport := leg.xFrom
    departure_time := (substrL leg.DTime.toList 11 16).asString
    departure_date := (substrL leg.DTime.toList 0 10).asString
    departure_code := leg.xFrom
    arrival_airport := leg.xDest
    arrival_date := (substrL leg.ATime.toList 0 10).asString
    arrival_time := (substrL leg.ATime.toList 11 16).asString
    arrival_code := leg.xDest
    duration_time := trip.fDur
    total_duration := trip.fDur
    currency := "BDT"
    actual_currency := "BDT"
    price := jsNumToString trip.fFare
    actual_price := jsNumToString trip.fFare
    adult_price := jsNumToString trip.fFare
    child_price := "0"
    infant_price := "0"
    booking_data := { fSoft := trip.fSoft, fGDSid := trip.fGDSid }
    supplier := "iatalocal"
    type := if trip.fReturn then "round" else "oneway"
    refundable := trip.fRefund != "NONREFUND" }

/-- The function `mapIataLocalToPhpResponse` as in part_004:106-171: group by `fSoft`
alone into a 2-slot leg array, then keep only groups whose required slots
are non-empty (`validItineraries`, part_004:159-168). -/
def mapIataLocal004 (iataResponse : IataResponse) : List Itin004 :=
  if !iataResponse.success then []
  else
    match iataResponse.data with
    | none => []
    | some d =>
      match d.Trips with
      | none => []
      | some trips =>
        let itineraries :=
          trips.foldl
            (fun acc trip =>
              let key := trip.fSoft
              -- if (!itineraries.has(key)) itineraries.set(key, { segments: [[], []] });
              let acc1 := if mapHas acc key then acc else acc ++ [(key, ({ segments := ([], []) } : Itin004))]
              let segs := trip.fLegs.map (mkSeg004 trip)
              -- trip.fLegs.forEach(...): push each leg's segment into
              -- segments[trip.fReturn ? 1 : 0] of the entry for `key`.
              acc1.map fun p =>
                if p.1 == key then
                  (p.1, if trip.fReturn
                        then ({ segments := (p.2.segments.1, p.2.segments.2 ++ segs) } : Itin004)
                        else ({ segments := (p.2.segments.1 ++ segs, p.2.segments.2) } : Itin004))
                else p)
            []
        (itineraries.map (fun p => p.2)).filter fun itinerary =>
          if 0 < itinerary.segments.2.length then
            decide (0 < itinerary.segments.1.length) && decide (0 < itinerary.segments.2.length)
          else decide (0 < itinerary.segments.1.length)

/- ## The orchestrator (src/index.js:44-63) -/

/-- The adapter's HTTP answer together with whether the upstream supplier
was called.  Success and failure both answer with a JSON array (`[]` on
failure), so one body type suffices. -/
structure HandlerResult where
  status : Nat
  body : List PhpItinerary
  upstreamCalled : Bool
deriving DecidableEq

/-- The function `smartApiHandler` (src/index.js:44-63) on an intercepted
(`/flights/iatalocal/`) request.  `body = none` models an absent request
body: `mapPhpToIataLocalRequest` then throws (reading `.origin` of
`undefined`) before the upstream call, and the `catch` answers 500 with
`[]`.  The upstream call is a function to `Except`; `.error` models a
network failure, a non-2xx answer, or a rejected promise, and is caught by
the same `catch`. -/
def smartApiHandler (body : Option PhpRequest)
    (upstream : IataLocalRequest → Except String IataResponse) : HandlerResult :=
  match body with
  | none => { status := 500, body := [], upstreamCalled := false }
  | some req =>
    match upstream (mapPhpToIataLocalRequest req) with
    | .error _ => { status := 500, body := [], upstreamCalled := true }
    | .ok resp =>
      { status := 200
        body := mapIataLocalToPhpResponse resp req
        upstreamCalled := true }

/- ## Lemmas about the `Map` embedding -/

section MapLemmas

variable {α : Type}

theorem mapGet_mapSet_self (m : List (String × α)) (k : String) (v : α) :
    mapGet (mapSet m k v) k = some v := by
  induction m with
  | nil => simp [mapSet, mapGet]
  | cons p rest ih =>
    by_cases hp : p.1 == k
    · simp [mapSet, mapGet, hp]
    · simp only [mapSet, hp, Bool.false_eq_true, if_false, mapGet]
      simp [hp, ih]

theorem mapGet_mapSet_ne (m : List (String × α)) (k k' : String) (v : α) (h : ¬(k' = k)) :
    mapGet (mapSet m k' v) k = mapGet m k := by
  induction m with
  | nil => simp [mapSet, mapGet, h]
  | cons p rest ih =>
    by_cases hp : p.1 == k'
    · have hpk : ¬(p.1 == k) := by
        intro hk
        exact h ((beq_iff_eq.1 hp).symm.trans (beq_iff_eq.1 hk))
      simp [mapSet, mapGet, hp, hpk, h]
    · by_cases hk : p.1 == k
      · simp [mapSet, mapGet, hp, hk]
      · simp [mapSet, mapGet, hp, hk, ih]

theorem keys_mapSet (m : List (String × α)) (k : String) (v : α) :
    (mapSet m k v).map Prod.fst
      = if mapHas m k then m.map Prod.fst else m.map Prod.fst ++ [k] := by
  induction m with
  | nil => simp [mapSet, mapHas]
  | cons p rest ih =>
    by_cases hp : p.1 == k
    · simp [mapSet, mapHas, hp, (beq_iff_eq.1 hp).symm]
    · by_cases hr : mapHas rest k
      · simp [mapSet, mapHas, hp, hr, ih]
      · simp [mapSet, mapHas, hp, hr, ih]

theorem mem_mapSet (m : List (String × α)) (k : String) (v : α) (p : String × α)
    (hp : p ∈ mapSet m k v) : p ∈ m ∨ p = (k, v) := by
  induction m with
  | nil => simpa [mapSet] using hp
  | cons q rest ih =>
    by_cases hq : q.1 == k
    · simp only [mapSet, hq, if_true] at hp
      rcases List.mem_cons.1 hp with h | h
      · exact Or.inr h
      · exact Or.inl (List.mem_cons_of_mem _ h)
    · simp only [mapSet, hq, Bool.false_eq_true, if_false] at hp
      rcases List.mem_cons.1 hp with h | h
      · exact Or.inl (h ▸ List.mem_cons_self _ _)
      · rcases ih h with h' | h'
        · exact Or.inl (List.mem_cons_of_mem _ h')
        · exact Or.inr h'

theorem mapHas_iff_mem_keys (m : List (String × α)) (k : String) :
    mapHas m k = true ↔ k ∈ m.map Prod.fst := by
  induction m with
  | nil => simp [mapHas]
  | cons p rest ih =>
    by_cases hp : p.1 == k
    · simp [mapHas, hp, (beq_iff_eq.1 hp).symm]
    · have hne : ¬(k = p.1) := fun h => hp (beq_iff_eq.2 h.symm)
      simp [mapHas, hp, ih, hne]

theorem mapGet_isSome_iff_mapHas (m : List (String × α)) (k : String) :
    (mapGet m k).isSome = mapHas m k := by
  induction m with
  | nil => simp [mapGet, mapHas]
  | cons p rest ih =>
    by_cases hp : p.1 == k
    · simp [mapGet, mapHas, hp]
    · simp [mapGet, mapHas, hp, ih]

end MapLemmas

/- ## Lemmas about the pairing fold (src/index.js:218-236) -/

/-- The map that `buildFlightMaps` builds for direction `d` (`false` =
outbound, `true` = inbound): fold `Map.set` over the trips of that
direction, in input order. -/
def buildDirMap (d : Bool) (trips : List Trip) : List (String × Trip) :=
  (trips.filter (fun t => t.fReturn == d)).foldl
    (fun m t => mapSet m (tripKey t) t) []

theorem buildFlightMaps_eq_buildDirMap (trips : List Trip) :
    buildFlightMaps trips = (buildDirMap false trips, buildDirMap true trips) := by
  have general :
      ∀ (l : List Trip) (m1 m2 : List (String × Trip)),
        l.foldl
          (fun maps trip =>
            if trip.fReturn then (maps.1, mapSet maps.2 (tripKey trip) trip)
            else (mapSet maps.1 (tripKey trip) trip, maps.2))
          (m1, m2)
        = ((l.filter (fun t => t.fReturn == false)).foldl (fun m t => mapSet m (tripKey t) t) m1,
           (l.filter (fun t => t.fReturn == true)).foldl (fun m t => mapSet m (tripKey t) t) m2) := by
    intro l
    induction l with
    | nil => intro m1 m2; rfl
    | cons t rest ih =>
      intro m1 m2
      by_cases ht : t.fReturn
      · simp [List.foldl_cons, List.filter_cons, ht, ih]
      · simp [List.foldl_cons, List.filter_cons, ht, ih]
  simpa [buildFlightMaps, buildDirMap] using general trips [] []

/-- Looking a key up in a direction map yields the **last** input record of
that direction with that key. -/
theorem mapGet_foldl_mapSet (l : List Trip) (k : String) :
    mapGet (l.foldl (fun m t => mapSet m (tripKey t) t) []) k
      = (l.filter (fun t => tripKey t == k)).getLast? := by
  induction l using List.reverseRecOn with
  | nil => rfl
  | append_singleton l t ih =>
    rw [List.foldl_append, List.filter_append]
    simp only [List.foldl_cons, List.foldl_nil, List.filter_cons, List.filter_nil]
    by_cases hk : tripKey t == k
    · have heq : tripKey t = k := beq_iff_eq.1 hk
      rw [heq, mapGet_mapSet_self]
      simp [hk]
    · have hne : ¬(tripKey t = k) := fun h => hk (beq_iff_eq.2 h)
      rw [mapGet_mapSet_ne _ _ _ _ hne]
      simp [hk, ih]

/-- The keys of a direction map are exactly the keys of that direction's
trips, without duplicates. -/
theorem keys_foldl_mapSet_nodup (l : List Trip) :
    ((l.foldl (fun m t => mapSet m (tripKey t) t) []).map Prod.fst).Nodup := by
  induction l using List.reverseRecOn with
  | nil => simp
  | append_singleton l t ih =>
    rw [List.foldl_append]
    simp only [List.foldl_cons, List.foldl_nil]
    rw [keys_mapSet]
    by_cases hh : mapHas (l.foldl (fun m t => mapSet m (tripKey t) t) []) (tripKey t)
    · simpa [hh] using ih
    · have hnotmem : tripKey t ∉ (l.foldl (fun m t => mapSet m (tripKey t) t) []).map Prod.fst := by
        intro hmem
        exact hh ((mapHas_iff_mem_keys _ _).2 hmem)
      simp [hh, List.nodup_append, ih, hnotmem]

theorem mem_keys_foldl_mapSet (l : List Trip) (k : String) :
    k ∈ (l.foldl (fun m t => mapSet m (tripKey t) t) []).map Prod.fst
      ↔ ∃ t ∈ l, tripKey t = k := by
  induction l using List.reverseRecOn with
  | nil => simp
  | append_singleton l t ih =>
    rw [List.foldl_append]
    simp only [List.foldl_cons, List.foldl_nil]
    rw [keys_mapSet]
    by_cases hh : mapHas (l.foldl (fun m t => mapSet m (tripKey t) t) []) (tripKey t)
    · have hkeys : tripKey t ∈ (l.foldl (fun m t => mapSet m (tripKey t) t) []).map Prod.fst :=
        (mapHas_iff_mem_keys _ _).1 hh
      rw [if_pos hh]
      constructor
      · intro h
        rcases ih.1 h with ⟨u, hu, hku⟩
        exact ⟨u, List.mem_append.2 (Or.inl hu), hku⟩
      · rintro ⟨u, hu, hku⟩
        rcases List.mem_append.1 hu with hu' | hu'
        · exact ih.2 ⟨u, hu', hku⟩
        · have hut : u = t := List.mem_singleton.1 hu'
          rw [← hku, hut]
          exact hkeys
    · rw [if_neg hh, List.mem_append, List.mem_singleton]
      constructor
      · intro h
        rcases h with h | h
        · rcases ih.1 h with ⟨u, hu, hku⟩
          exact ⟨u, List.mem_append.2 (Or.inl hu), hku⟩
        · exact ⟨t, List.mem_append.2 (Or.inr (List.mem_singleton.2 rfl)), h.symm⟩
      · rintro ⟨u, hu, hku⟩
        rcases List.mem_append.1 hu with hu' | hu'
        · exact Or.inl (ih.2 ⟨u, hu', hku⟩)
        · have hut : u = t := List.mem_singleton.1 hu'
          exact Or.inr (by rw [← hku, hut])

/-- Every entry of a direction map is one of the folded trips, stored
under its own key. -/
theorem mem_foldl_mapSet (l : List Trip) (p : String × Trip)
    (hp : p ∈ l.foldl (fun m t => mapSet m (tripKey t) t) []) :
    p.2 ∈ l ∧ tripKey p.2 = p.1 := by
  induction l using List.reverseRecOn with
  | nil => simp at hp
  | append_singleton l t ih =>
    rw [List.foldl_append] at hp
    simp only [List.foldl_cons, List.foldl_nil] at hp
    rcases mem_mapSet _ _ _ _ hp with h | h
    · rcases ih h with ⟨h1, h2⟩
      exact ⟨List.mem_append.2 (Or.inl h1), h2⟩
    · subst h
      exact ⟨by simp, rfl⟩

/-- The `forEach`-with-`push` loop as a `filterMap`. -/
theorem foldl_push_eq_filterMap {α β γ : Type} (h : α → Option γ) (g : α → γ → β)
    (l : List α) (acc : List β) :
    l.foldl
      (fun a x =>
        match h x with
        | some y => a ++ [g x y]
        | none => a)
      acc
      = acc ++ l.filterMap (fun x => (h x).map (g x)) := by
  induction l generalizing acc with
  | nil => simp
  | cons x rest ih =>
    cases hx : h x with
    | none => simp [List.foldl_cons, hx, ih]
    | some y => simp [List.foldl_cons, hx, ih]

theorem length_filterMap_map {α γ : Type} (h : α → Option γ) {β : Type} (g : α → γ → β)
    (l : List α) :
    (l.filterMap (fun x => (h x).map (g x))).length
      = (l.filter (fun x => (h x).isSome)).length := by
  induction l with
  | nil => rfl
  | cons x rest ih =>
    cases hx : h x with
    | none => simp [hx, ih]
    | some y => simp [hx, ih]

/- ## Lemmas about the round-trip pairing (src/index.js:206-237) -/

theorem foldl_pairStep_eq_filterMap (inMap : List (String × Trip)) (req : PhpRequest)
    (l : List (String × Trip)) (acc : List PhpItinerary) :
    l.foldl (pairStep inMap req) acc
      = acc ++ l.filterMap
          (fun p => (mapGet inMap p.1).map
            (fun inb => ({ segments := [createPhpSegmentsIdx p.2 req,
                                        createPhpSegmentsIdx inb req] } : PhpItinerary))) := by
  induction l generalizing acc with
  | nil => simp
  | cons p rest ih =>
    cases hp : mapGet inMap p.1 with
    | none => simp [List.foldl_cons, pairStep, hp, ih]
    | some inb => simp [List.foldl_cons, pairStep, hp, ih]

/-- The set of composite keys of the trips flying in direction `d`. -/
def directionKeys (d : Bool) (trips : List Trip) : Finset String :=
  ((trips.filter (fun t => t.fReturn == d)).map tripKey).toFinset

theorem mem_directionKeys (d : Bool) (trips : List Trip) (k : String) :
    k ∈ directionKeys d trips ↔ ∃ t ∈ trips, t.fReturn = d ∧ tripKey t = k := by
  unfold directionKeys
  rw [List.mem_toFinset, List.mem_map]
  constructor
  · rintro ⟨t, htf, rfl⟩
    rcases List.mem_filter.1 htf with ⟨htm, hbeq⟩
    exact ⟨t, htm, beq_iff_eq.1 hbeq, rfl⟩
  · rintro ⟨t, htm, hret, hkey⟩
    exact ⟨t, List.mem_filter.2 ⟨htm, beq_iff_eq.2 hret⟩, hkey⟩

theorem keys_toFinset_eq (l : List Trip) :
    ((l.foldl (fun m t => mapSet m (tripKey t) t) []).map Prod.fst).toFinset
      = (l.map tripKey).toFinset := by
  ext k
  rw [List.mem_toFinset, List.mem_toFinset, mem_keys_foldl_mapSet, List.mem_map]

theorem length_filter_fst (l : List (String × Trip)) (Q : String → Bool) :
    (l.filter (fun p => Q p.1)).length = ((l.map Prod.fst).filter Q).length := by
  induction l with
  | nil => rfl
  | cons p rest ih =>
    by_cases hq : Q p.1 <;> simp [List.filter_cons, hq, ih]

theorem createPhpSegmentsIdx_ne_nil (trip : Trip) (req : PhpRequest) (h : trip.fLegs ≠ []) :
    createPhpSegmentsIdx trip req ≠ [] := by
  simp only [createPhpSegmentsIdx]
  intro hmap
  exact h (List.map_eq_nil_iff.1 hmap)

/-- The normalizer on a payload with `success` and `Trips` present: the
one-way branch maps, the round-trip branch pairs matched keys. -/
theorem mapResponse_unfold (trips : List Trip) (req : PhpRequest) :
    mapIataLocalToPhpResponse { success := true, data := some { Trips := some trips } } req
      = if req.triptypename = "oneway"
        then trips.map (fun t => { segments := [createPhpSegmentsIdx t req] })
        else (buildDirMap false trips).filterMap
            (fun p => (mapGet (buildDirMap true trips) p.1).map
              (fun inb => { segments := [createPhpSegmentsIdx p.2 req,
                                         createPhpSegmentsIdx inb req] })) := by
  by_cases ht : req.triptypename = "oneway"
  · simp [mapIataLocalToPhpResponse, ht]
  · simp [mapIataLocalToPhpResponse, ht, buildFlightMaps_eq_buildDirMap,
          foldl_pairStep_eq_filterMap]

/-- Every itinerary of the round-trip pairing output comes from an
outbound and an inbound input record sharing the composite key, and its
`segments` is the two-element list of their leg segment lists. -/
theorem mem_pairing_result (trips : List Trip) (req : PhpRequest) (it : PhpItinerary)
    (hit : it ∈ (buildDirMap false trips).filterMap
        (fun p => (mapGet (buildDirMap true trips) p.1).map
          (fun inb => ({ segments := [createPhpSegmentsIdx p.2 req,
                                      createPhpSegmentsIdx inb req] } : PhpItinerary)))) :
    ∃ t1, (t1 ∈ trips ∧ t1.fReturn = false) ∧ ∃ t2, (t2 ∈ trips ∧ t2.fReturn = true) ∧
      tripKey t1 = tripKey t2
      ∧ it.segments = [createPhpSegmentsIdx t1 req, createPhpSegmentsIdx t2 req] := by
  rcases List.mem_filterMap.1 hit with ⟨p, hp, heq⟩
  rcases Option.map_eq_some'.1 heq with ⟨inb, hinb, hg⟩
  unfold buildDirMap at hp hinb
  have hpmem := mem_foldl_mapSet _ _ hp
  rcases hpmem with ⟨hpfilter, hpkey⟩
  rcases List.mem_filter.1 hpfilter with ⟨hpmem', hpbeq⟩
  rw [mapGet_foldl_mapSet] at hinb
  have hinbmem : inb ∈ (trips.filter (fun t => t.fReturn == true)).filter
      (fun t => tripKey t == p.1) := by
    have hmem : inb ∈ ((trips.filter (fun t => t.fReturn == true)).filter
        (fun t => tripKey t == p.1)).getLast? := Option.mem_def.2 hinb
    rcases List.mem_getLast?_eq_getLast hmem with ⟨hne, hlast⟩
    rw [hlast]
    exact List.getLast_mem hne
  rcases List.mem_filter.1 hinbmem with ⟨hinb1, hinbkey⟩
  rcases List.mem_filter.1 hinb1 with ⟨hinbmem', hinbret⟩
  refine ⟨p.2, ⟨hpmem', beq_iff_eq.1 hpbeq⟩, inb, ⟨hinbmem', beq_iff_eq.1 hinbret⟩, ?_, ?_⟩
  · rw [hpkey, beq_iff_eq.1 hinbkey]
  · rw [← hg]

/-- The number of paired itineraries is the size of the intersection of
the outbound and inbound key sets. -/
theorem length_pairing_result (trips : List Trip) (req : PhpRequest) :
    ((buildDirMap false trips).filterMap
        (fun p => (mapGet (buildDirMap true trips) p.1).map
          (fun inb => ({ segments := [createPhpSegmentsIdx p.2 req,
                                      createPhpSegmentsIdx inb req] } : PhpItinerary)))).length
      = (directionKeys false trips ∩ directionKeys true trips).card := by
  rw [length_filterMap_map]
  rw [length_filter_fst (buildDirMap false trips)
      (fun k => (mapGet (buildDirMap true trips) k).isSome)]
  have hnodup : ((buildDirMap false trips).map Prod.fst).Nodup :=
    keys_foldl_mapSet_nodup (trips.filter (fun t => t.fReturn == false))
  rw [← List.toFinset_card_of_nodup
      (hnodup.filter (fun k => (mapGet (buildDirMap true trips) k).isSome))]
  rw [List.toFinset_filter]
  have hS : ((buildDirMap false trips).map Prod.fst).toFinset = directionKeys false trips :=
    keys_toFinset_eq (trips.filter (fun t => t.fReturn == false))
  rw [hS]
  have hQ : ∀ k ∈ directionKeys false trips,
      ((mapGet (buildDirMap true trips) k).isSome = true)
        ↔ k ∈ directionKeys true trips := by
    intro k _
    rw [mapGet_isSome_iff_mapHas, mapHas_iff_mem_keys]
    unfold buildDirMap
    rw [← List.mem_toFinset, keys_toFinset_eq]
    exact Iff.rfl
  rw [Finset.filter_congr hQ, Finset.filter_mem_eq_inter]

theorem directionKeys_inter_nonempty_iff (trips : List Trip) :
    (directionKeys false trips ∩ directionKeys true trips).Nonempty
      ↔ ∃ t1 ∈ trips, ∃ t2 ∈ trips,
          t1.fReturn = false ∧ t2.fReturn = true ∧ tripKey t1 = tripKey t2 := by
  constructor
  · rintro ⟨k, hk⟩
    rcases Finset.mem_inter.1 hk with ⟨hout, hin⟩
    rcases (mem_directionKeys false trips k).1 hout with ⟨t1, ht1, hret1, hkey1⟩
    rcases (mem_directionKeys true trips k).1 hin with ⟨t2, ht2, hret2, hkey2⟩
    exact ⟨t1, ht1, t2, ht2, hret1, hret2, hkey1.trans hkey2.symm⟩
  · rintro ⟨t1, ht1, t2, ht2, hret1, hret2, hkey⟩
    refine ⟨tripKey t1, Finset.mem_inter.2 ⟨?_, ?_⟩⟩
    · exact (mem_directionKeys false trips (tripKey t1)).2 ⟨t1, ht1, hret1, rfl⟩
    · exact (mem_directionKeys true trips (tripKey t1)).2 ⟨t2, ht2, hret2, hkey.symm⟩

/- ## Concrete example data (used by witnesses and counterexamples) -/

/-- A one-hour domestic leg. -/
def exLeg : Leg where
  xFlight := "BG101"
  xClass := "Y"
  xACode := "BG"
  xFrom := "DAC"
  xDest := "CGP"
  DTime := "2024-03-05T10:30"
  ATime := "2024-03-05T11:30"

/-- A domestic supplier trip record with fare 1000 (outbound direction,
key `S1-G1`). -/
def exTripOut : Trip where
  fSoft := "S1"
  fGDSid := "G1"
  fAMYid := some "AMY1"
  fReturn := false
  fLegs := [exLeg]
  fFare := 1000
  fBFare := some 800
  fDursec := some 125
  fDur := "02:05"
  fBag := "Baggage: 20 KG"
  fRefund := "NONREFUND"
  fClsNam := some "Economy"
  fModel := none
  fTransit1 := none
  fTransit2 := none
  fTransitAP1 := none
  fTransitAP2 := none
  csource := none
  stAirline := "Biman"
  stAirCode := "BG"
  xFrom := "Dhaka - DAC - BD"
  xDest := "Chittagong - CGP - BD"

/-- The matching inbound record (same composite key `S1-G1`). -/
def exTripIn : Trip := { exTripOut with fReturn := true }

/-- An outbound record with no matching inbound record (key `S2-G9`). -/
def exTripOrphan : Trip := { exTripOut with fSoft := "S2", fGDSid := "G9" }

/-- An international variant of `exTripOut` (destination country `IN`). -/
def exTripIntl : Trip := { exTripOut with xDest := "Kolkata - CCU - IN" }

/-- An outbound record with an **empty** `fLegs` array (key `S1-G1`). -/
def exTripOutNoLegs : Trip := { exTripOut with fLegs := [] }

/-- Key-collision record: `fSoft = "a-b"`, `fGDSid = "c"`. -/
def exTripKeyA : Trip := { exTripOut with fSoft := "a-b", fGDSid := "c" }

/-- Key-collision record: `fSoft = "a"`, `fGDSid = "b-c"` — a different
field pair whose concatenated composite key coincides with `exTripKeyA`. -/
def exTripKeyB : Trip := { exTripOut with fSoft := "a", fGDSid := "b-c" }

/-- A round-trip legacy request. -/
def exReq : PhpRequest where
  origin := "Dhaka - DAC"
  destination := "Chittagong - CGP"
  triptypename := "round"
  departure_date := some "2024-03-05"
  return_date := some "2024-03-10"
  adults := "2"
  childrens := "1"
  infants := "0"

/-- A one-way legacy request **with** a `return_date` present. -/
def exReqOneway : PhpRequest := { exReq with triptypename := "oneway" }

/-- A successful supplier payload: a matched outbound/inbound pair plus an
orphan outbound record. -/
def exResp : IataResponse where
  success := true
  data := some { Trips := some [exTripOut, exTripIn, exTripOrphan] }

/-- A successful supplier payload in which the matched outbound record has
an empty `fLegs` array. -/
def exRespNoLegs : IataResponse where
  success := true
  data := some { Trips := some [exTripOutNoLegs, exTripIn] }

/-- A trivially unsuccessful supplier payload. -/
def exRespFail : IataResponse where
  success := false
  data := none

/-- A concrete upstream that always fails (network error / rejection). -/
def exUpstreamErr : IataLocalRequest → Except String IataResponse :=
  fun _ => .error "network error"

/-- A concrete upstream that always answers with `exRespFail`. -/
def exUpstreamOk : IataLocalRequest → Except String IataResponse :=
  fun _ => .ok exRespFail

/- ## Claim C2 -/

/-- Claim C2, counterexample.  The claim says a request with the credential
missing or the body absent is answered with HTTP 400, a structured error
body, and no upstream call.  The code has no such path: an absent body
makes the request mapper throw, and the catch answers **500** with `[]`;
and the handler reads no credential at all, so a present body (necessarily
without a credential — no credential field exists) always reaches the
upstream call. -/
theorem c2_counterexample :
    (smartApiHandler none exUpstreamErr).status = 500
    ∧ (smartApiHandler none exUpstreamErr).status ≠ 400
    ∧ (smartApiHandler none exUpstreamErr).upstreamCalled = false
    ∧ (smartApiHandler (some exReq) exUpstreamOk).upstreamCalled = true := by
  refine ⟨rfl, by decide, rfl, rfl⟩

/-- Claim C2, amended.  What the orchestrator actually does: an absent
request body is answered with status 500 and body `[]` without calling
upstream (the mapper's throw is caught); there is no credential check —
with any present body the upstream call is always made. -/
theorem c2_missing_body_is_500_no_upstream :
    (∀ upstream : IataLocalRequest → Except String IataResponse,
      smartApiHandler none upstream
        = { status := 500, body := [], upstreamCalled := false })
    ∧ (∀ (req : PhpRequest) (upstream : IataLocalRequest → Except String IataResponse),
        (smartApiHandler (some req) upstream).upstreamCalled = true) := by
  constructor
  · intro upstream
    rfl
  · intro req upstream
    cases h : upstream (mapPhpToIataLocalRequest req) with
    | error e => simp [smartApiHandler, h]
    | ok resp => simp [smartApiHandler, h]

/-- Claim C2, amended, witness. -/
theorem c2_missing_body_is_500_no_upstream_witness :
    smartApiHandler none exUpstreamOk
      = { status := 500, body := [], upstreamCalled := false }
    ∧ (smartApiHandler (some exReq) exUpstreamErr).upstreamCalled = true :=
  ⟨c2_missing_body_is_500_no_upstream.1 exUpstreamOk,
   c2_missing_body_is_500_no_upstream.2 exReq exUpstreamErr⟩

/- ## Claim C3 -/

/-- Claim C3.  Whenever the upstream supplier call fails (network failure,
non-2xx, rejection), the orchestrator answers status 500 with body `[]`
and the exception does not escape: `smartApiHandler` is a total function
whose failure answer is exactly `{ status := 500, body := [] }` (and the
upstream was indeed called). -/
theorem c3_upstream_failure_is_500_empty
    (req : PhpRequest) (upstream : IataLocalRequest → Except String IataResponse)
    (e : String) (h : upstream (mapPhpToIataLocalRequest req) = .error e) :
    smartApiHandler (some req) upstream
      = { status := 500, body := [], upstreamCalled := true } := by
  simp [smartApiHandler, h]

/-- Claim C3, witness. -/
theorem c3_upstream_failure_is_500_empty_witness :
    smartApiHandler (some exReq) exUpstreamErr
      = { status := 500, body := [], upstreamCalled := true } :=
  c3_upstream_failure_is_500_empty exReq exUpstreamErr "network error" rfl

/- ## Claim C5 -/

/-- The claim's notion of a malformed date input: `undefined`/non-string
(`none`), empty, not exactly 3 hyphen-separated parts, a non-numeric month
part, or a month index outside 0–11. -/
def malformedDate : Option String → Prop
  | none => True
  | some s =>
      s = "" ∨ (dateParts s).length ≠ 3
        ∨ (match monthNum s with
           | none => True
           | some m => m - 1 < 0 ∨ 11 < m - 1)

/-- Claim C5, counterexample.  The claim (read over both cited
implementations) says every malformed input — including a non-numeric
month part — maps to `""`.  The part_002/part_005 revision has no
`isNaN(monthIndex)` guard, so `"2024-xx-05"` (a malformed input in the
claim's own list) produces `"05-undefined-2024"`, not `""`. -/
theorem c5_counterexample :
    malformedDate (some "2024-xx-05")
    ∧ convertDateToDDMonYYYYv (some "2024-xx-05") = "05-undefined-2024"
    ∧ convertDateToDDMonYYYYv (some "2024-xx-05") ≠ "" := by
  refine ⟨Or.inr (Or.inr ?_), by decide, by decide⟩
  have h : monthNum "2024-xx-05" = none := by decide
  rw [h]
  trivial

/-- Claim C5, amended.  The current revision (src/index.js:80-87, with the
`isNaN` guard) satisfies the claim: the example date converts correctly
and every malformed input maps to `""` (the function is total, so nothing
throws).  The part_002/part_005 revision agrees except on a non-numeric
month part in an otherwise 3-part non-empty input, where it instead
produces `"<day>-undefined-<year>"`. -/
theorem c5_convertDate_malformed_to_empty :
    convertDateToDDMonYYYY (some "2024-03-05") = "05-Mar-2024"
    ∧ (∀ s : Option String, malformedDate s → convertDateToDDMonYYYY s = "")
    ∧ convertDateToDDMonYYYYv (some "2024-03-05") = "05-Mar-2024"
    ∧ (∀ str : String, malformedDate (some str) →
        convertDateToDDMonYYYYv (some str) = ""
        ∨ convertDateToDDMonYYYYv (some str) = dayPart str ++ "-undefined-" ++ yearPart str) := by
  refine ⟨by decide, ?_, by decide, ?_⟩
  · intro s hs
    match s with
    | none => rfl
    | some str =>
      by_cases hempty : str = ""
      · simp [convertDateToDDMonYYYY, hempty]
      · by_cases hlen : (dateParts str).length = 3
        · rcases hs with h | h | h
          · exact absurd h hempty
          · exact absurd hlen h
          · cases hm : monthNum str with
            | none => simp [convertDateToDDMonYYYY, hempty, hlen, hm]
            | some m =>
              rw [hm] at h
              have hrange : m - 1 < 0 ∨ 11 < m - 1 := h
              simp only [convertDateToDDMonYYYY, hempty, hlen, hm]
              rw [if_neg (by omega : ¬((3:Nat) ≠ 3)), if_pos hrange]
              simp
        · simp [convertDateToDDMonYYYY, hempty, hlen]
  · intro str hs
    by_cases hempty : str = ""
    · exact Or.inl (by simp [convertDateToDDMonYYYYv, hempty])
    · by_cases hlen : (dateParts str).length = 3
      · rcases hs with h | h | h
        · exact absurd h hempty
        · exact absurd hlen h
        · cases hm : monthNum str with
          | none =>
            exact Or.inr (by simp [convertDateToDDMonYYYYv, hempty, hlen, hm])
          | some m =>
            rw [hm] at h
            have hrange : m - 1 < 0 ∨ 11 < m - 1 := h
            refine Or.inl ?_
            simp only [convertDateToDDMonYYYYv, hempty, hlen, hm]
            rw [if_neg (by omega : ¬((3:Nat) ≠ 3)), if_pos hrange]
            simp
      · exact Or.inl (by simp [convertDateToDDMonYYYYv, hempty, hlen])

/-- Claim C5, witness. -/
theorem c5_convertDate_malformed_to_empty_witness :
    convertDateToDDMonYYYY (some "bad-date") = ""
    ∧ convertDateToDDMonYYYY (some "") = ""
    ∧ convertDateToDDMonYYYY none = "" := by
  refine ⟨?_, ?_, ?_⟩
  · exact c5_convertDate_malformed_to_empty.2.1 (some "bad-date") (Or.inr (Or.inl (by decide)))
  · exact c5_convertDate_malformed_to_empty.2.1 (some "") (Or.inl rfl)
  · exact c5_convertDate_malformed_to_empty.2.1 none trivial

/- ## Claim C6 -/

/-- Claim C6, counterexample.  The claim (read over both cited
implementations) says `formatDuration(-5)` yields `"00:00"` and the output
never contains negative parts.  The part_002/part_005 revision guards only
NaN, so `-5` flows through `Math.floor(-5/60) = -1` and `-5 % 60 = -5`,
producing `"-1:-5"`. -/
theorem c6_counterexample :
    formatDurationV (some (-5)) = "-1:-5" ∧ formatDurationV (some (-5)) ≠ "00:00" := by
  have h1 : (⌊(-5:ℚ)/60⌋ : Int) = -1 := by norm_num [Int.floor_eq_iff]
  have h2 : jsModQ (-5) 60 = -5 := by norm_num [jsModQ, jsTrunc, Int.floor_eq_iff]
  have heq : formatDurationV (some (-5)) = "-1:-5" := by
    simp only [formatDurationV]
    rw [h1, h2]
    decide
  exact ⟨heq, by rw [heq]; decide⟩

/-- Claim C6, amended.  The current revision (src/index.js:89-94, guard
`isNaN(totalMinutes) || totalMinutes < 0`) satisfies the claim:
`125 ↦ "02:05"`, NaN (`none`) `↦ "00:00"`, and **every** negative input
`↦ "00:00"`.  The part_002/part_005 revision agrees on NaN and on all
non-negative inputs but lets negative values through (see the
counterexample). -/
theorem c6_formatDuration_clamped :
    formatDuration (some 125) = "02:05"
    ∧ formatDuration none = "00:00"
    ∧ (∀ q : ℚ, q < 0 → formatDuration (some q) = "00:00")
    ∧ formatDurationV (some 125) = "02:05"
    ∧ formatDurationV none = "00:00"
    ∧ (∀ q : ℚ, 0 ≤ q → formatDurationV (some q) = formatDuration (some q)) := by
  have h1 : (⌊(125:ℚ)/60⌋ : Int) = 2 := by norm_num
  have h2 : jsModQ 125 60 = 5 := by norm_num [jsModQ, jsTrunc]
  refine ⟨?_, rfl, ?_, ?_, rfl, ?_⟩
  · simp only [formatDuration]
    rw [if_neg (by norm_num), h1, h2]
    decide
  · intro q hq
    simp only [formatDuration]
    rw [if_pos hq]
  · simp only [formatDurationV]
    rw [h1, h2]
    decide
  · intro q hq
    simp only [formatDuration, formatDurationV]
    rw [if_neg (not_lt.2 hq)]

/-- Claim C6, witness. -/
theorem c6_formatDuration_clamped_witness :
    formatDuration (some (-7)) = "00:00" ∧ formatDuration (some 125) = "02:05" :=
  ⟨c6_formatDuration_clamped.2.2.1 (-7) (by norm_num), c6_formatDuration_clamped.1⟩

/- ## Claim C8 -/

/-- Claim C8, counterexample.  The claim says a non-empty `RDT` is included
*only when* the trip type is round AND `return_date` is present.  In the
code `RDT` depends on `return_date` alone: a **one-way** request with a
`return_date` still gets a non-empty `RDT` (and no origin/destination swap
exists anywhere — the payload has a single `FROM`/`DEST` pair). -/
theorem c8_counterexample :
    exReqOneway.triptypename ≠ "round"
    ∧ (mapPhpToIataLocalRequest exReqOneway).RDT = "10-Mar-2024"
    ∧ (mapPhpToIataLocalRequest exReqOneway).RDT ≠ ""
    ∧ (mapPhpToIataLocalRequest exReqOneway).TRIP = "OW" := by
  refine ⟨by decide, by decide, by decide, by decide⟩

/-- Claim C8, amended.  The outbound journey date `JDT` is built
unconditionally from `departure_date`; `RDT` is governed by `return_date`
alone — it equals the converted `return_date` when that field is present
and truthy, and `""` otherwise, irrespective of the trip type (which only
selects `TRIP = "RT"`/`"OW"`).  No return slice with swapped origin and
destination exists: the payload carries the single `FROM`/`DEST` pair
derived from `origin`/`destination`. -/
theorem c8_return_date_governs_RDT (req : PhpRequest) :
    (mapPhpToIataLocalRequest req).JDT = convertDateToDDMonYYYY req.departure_date
    ∧ (mapPhpToIataLocalRequest req).RDT
        = (if jsTruthyStr req.return_date then convertDateToDDMonYYYY req.return_date else "")
    ∧ ((mapPhpToIataLocalRequest req).RDT ≠ "" → jsTruthyStr req.return_date = true)
    ∧ ((mapPhpToIataLocalRequest req).TRIP = "RT" ↔ req.triptypename = "round")
    ∧ (mapPhpToIataLocalRequest req).FROM = airportCode req.origin
    ∧ (mapPhpToIataLocalRequest req).DEST = airportCode req.destination := by
  refine ⟨rfl, rfl, ?_, ?_, rfl, rfl⟩
  · intro h
    by_cases ht : jsTruthyStr req.return_date
    · exact ht
    · exact absurd (by simp [mapPhpToIataLocalRequest, ht]) h
  · by_cases hr : req.triptypename = "round"
    · simp [mapPhpToIataLocalRequest, hr]
    · simp [mapPhpToIataLocalRequest, hr]

/-- Claim C8, witness. -/
theorem c8_return_date_governs_RDT_witness :
    (mapPhpToIataLocalRequest exReq).JDT = convertDateToDDMonYYYY exReq.departure_date
    ∧ (mapPhpToIataLocalRequest exReq).RDT
        = (if jsTruthyStr exReq.return_date then convertDateToDDMonYYYY exReq.return_date else "")
    ∧ ((mapPhpToIataLocalRequest exReq).RDT ≠ "" → jsTruthyStr exReq.return_date = true)
    ∧ ((mapPhpToIataLocalRequest exReq).TRIP = "RT" ↔ exReq.triptypename = "round")
    ∧ (mapPhpToIataLocalRequest exReq).FROM = airportCode exReq.origin
    ∧ (mapPhpToIataLocalRequest exReq).DEST = airportCode exReq.destination :=
  c8_return_date_governs_RDT exReq

/- ## Claim C9 -/

theorem jsRemoveFirst_of_isPrefixOf (pat l : List Char) (h : pat.isPrefixOf l = true) :
    jsRemoveFirst pat l = l.drop pat.length := by
  cases l with
  | nil =>
    cases pat with
    | nil => rfl
    | cons p ps => simp [List.isPrefixOf] at h
  | cons c rest => simp [jsRemoveFirst, h]

theorem jsRemoveFirst_of_not_contains (pat l : List Char)
    (h : containsSub pat l = false) : jsRemoveFirst pat l = l := by
  induction l with
  | nil => rfl
  | cons c rest ih =>
    simp only [containsSub, Bool.or_eq_false_iff] at h
    simp [jsRemoveFirst, h.1, ih h.2]

/-- The baggage rule as the spec words it: strip a literal `"Baggage:"`
label **prefix** (when present at the start) and trim — nothing else. -/
def specBaggage (fBag : String) : String :=
  let stripped :=
    if "Baggage:".toList.isPrefixOf fBag.toList
    then fBag.toList.drop ("Baggage:".toList.length)
    else fBag.toList
  (trimL stripped).asString

/-- Claim C9, counterexample.  The claim (read over both cited
implementations) says the canonical baggage field is the raw `fBag` with
the `"Baggage:"` prefix removed and trimmed, with *no other
transformation*.  The src/index.js revision additionally removes **all**
whitespace and upper-cases: for `fBag = "Baggage: 20 KG"` it emits
`"20KG"` where the claimed value is `"20 KG"`. -/
theorem c9_counterexample :
    (createPhpSegmentsIdx exTripOut exReq).map (fun s => s.baggage) = ["20KG"]
    ∧ specBaggage exTripOut.fBag = "20 KG"
    ∧ ¬ (∀ s ∈ createPhpSegmentsIdx exTripOut exReq, s.baggage = specBaggage exTripOut.fBag) := by
  refine ⟨by decide, by decide, by decide⟩

/-- Claim C9, amended.  The part_002/part_005 revisions compute baggage as
`fBag.replace('Baggage:', '').trim()`.  JavaScript string `replace`
removes the *first occurrence* wherever it is, so whenever `"Baggage:"`
occurs only as a leading label (or not at all) this equals the spec's
prefix-strip-and-trim, with no other transformation.  The src/index.js
revision deviates: it also strips all whitespace and upper-cases. -/
theorem c9_baggage_strip_and_trim (trip : Trip)
    (h : "Baggage:".toList.isPrefixOf trip.fBag.toList = true
         ∨ containsSub "Baggage:".toList trip.fBag.toList = false) :
    (∀ s ∈ createPhpSegments002 trip, s.baggage = specBaggage trip.fBag)
    ∧ (∀ s ∈ createPhpSegments005 trip, s.baggage = specBaggage trip.fBag) := by
  have hbag : (trimL (jsRemoveFirst "Baggage:".toList trip.fBag.toList)).asString
      = specBaggage trip.fBag := by
    rcases h with h | h
    · rw [jsRemoveFirst_of_isPrefixOf _ _ h]
      unfold specBaggage
      rw [if_pos h]
    · have hpre : "Baggage:".toList.isPrefixOf trip.fBag.toList = false := by
        cases hl : trip.fBag.toList with
        | nil => decide
        | cons c rest =>
          rw [hl] at h
          simp only [containsSub, Bool.or_eq_false_iff] at h
          exact h.1
      rw [jsRemoveFirst_of_not_contains _ _ h]
      unfold specBaggage
      rw [if_neg (by rw [hpre]; exact Bool.false_ne_true)]
  constructor
  · intro s hs
    simp only [createPhpSegments002, List.mem_map] at hs
    rcases hs with ⟨leg, _, rfl⟩
    exact hbag
  · intro s hs
    simp only [createPhpSegments005, List.mem_map] at hs
    rcases hs with ⟨leg, _, rfl⟩
    exact hbag

/-- Claim C9, witness. -/
theorem c9_baggage_strip_and_trim_witness :
    ((∀ s ∈ createPhpSegments002 exTripOut, s.baggage = specBaggage exTripOut.fBag)
      ∧ (∀ s ∈ createPhpSegments005 exTripOut, s.baggage = specBaggage exTripOut.fBag))
    ∧ (createPhpSegments002 exTripOut).map (fun s => s.baggage) = ["20 KG"] :=
  ⟨c9_baggage_strip_and_trim exTripOut (Or.inl (by decide)), by decide⟩

/- ## Claim C4 -/

/-- The fee rule as the spec words it: domestic ⇒
`round(fare × 0.97 + 100)`; international ⇒
`round(fare × 0.95 + max(1000, fare × 0.02))`. -/
def specPrice (fare : ℚ) (domestic : Bool) : Int :=
  if domestic then jsRound (fare * (97/100) + 100)
  else jsRound (fare * (95/100) + max 1000 (fare * (2/100)))

/-- Claim C4.  `calculatePrice` implements exactly the spec's fee rule on
the (country-code-compared) domestic flag; a fare of 1000 yields 1070
domestically and 1950 internationally; and in the part_005 segments the
derived price — not the raw upstream fare — fills `price` and
`adult_price` (and the other per-pax price fields). -/
theorem c4_fee_rule (trip : Trip) :
    calculatePrice trip
      = specPrice (jsOrQ (some trip.fFare) 0)
          (countryComponent trip.xFrom == countryComponent trip.xDest)
    ∧ (trip.fFare = 1000 → countryComponent trip.xFrom = countryComponent trip.xDest →
        calculatePrice trip = 1070)
    ∧ (trip.fFare = 1000 → countryComponent trip.xFrom ≠ countryComponent trip.xDest →
        calculatePrice trip = 1950)
    ∧ (∀ s ∈ createPhpSegments005 trip,
        s.price = intToStr (calculatePrice trip)
        ∧ s.adult_price = intToStr (calculatePrice trip)
        ∧ s.child_price = intToStr (calculatePrice trip)
        ∧ s.infant_price = intToStr (calculatePrice trip)) := by
  refine ⟨?_, ?_, ?_, ?_⟩
  · by_cases hd : countryComponent trip.xFrom = countryComponent trip.xDest
    · simp [calculatePrice, specPrice, hd]
    · simp [calculatePrice, specPrice, hd]
  · intro hf hd
    have hq : jsOrQ (some trip.fFare) 0 = 1000 := by
      rw [hf]; norm_num [jsOrQ]
    simp only [calculatePrice, hq]
    rw [if_pos hd]
    norm_num [jsRound]
  · intro hf hd
    have hq : jsOrQ (some trip.fFare) 0 = 1000 := by
      rw [hf]; norm_num [jsOrQ]
    simp only [calculatePrice, hq]
    rw [if_neg hd]
    have hmax : max (1000:ℚ) (1000 * (2/100)) = 1000 := by norm_num
    rw [hmax]
    norm_num [jsRound]
  · intro s hs
    simp only [createPhpSegments005, List.mem_map] at hs
    rcases hs with ⟨leg, _, rfl⟩
    exact ⟨rfl, rfl, rfl, rfl⟩

/-- Claim C4, witness. -/
theorem c4_fee_rule_witness :
    calculatePrice exTripOut = 1070
    ∧ calculatePrice exTripIntl = 1950
    ∧ (createPhpSegments005 exTripOut).map (fun s => s.price) = ["1070"]
    ∧ (createPhpSegments005 exTripOut).map (fun s => s.adult_price) = ["1070"] := by
  refine ⟨(c4_fee_rule exTripOut).2.1 rfl (by decide),
          (c4_fee_rule exTripIntl).2.2.1 rfl (by decide), ?_, ?_⟩
  · have h : calculatePrice exTripOut = 1070 := (c4_fee_rule exTripOut).2.1 rfl (by decide)
    simp [createPhpSegments005, h]
    decide
  · have h : calculatePrice exTripOut = 1070 := (c4_fee_rule exTripOut).2.1 rfl (by decide)
    simp [createPhpSegments005, h]
    decide

/- ## Claim C10 -/

/-- Claim C10.  The composite pairing key is the plain string concatenation
`fSoft ++ "-" ++ fGDSid`; two records group together exactly when these
concatenations coincide — in particular the distinct field pairs
`("a-b","c")` and `("a","b-c")` collide on the key `"a-b-c"` — and per
direction the map retains only the **last** record (in input order) for
each key. -/
theorem c10_key_concat_last_wins :
    (∀ t1 t2 : Trip, tripKey t1 = tripKey t2 ↔
        t1.fSoft ++ "-" ++ t1.fGDSid = t2.fSoft ++ "-" ++ t2.fGDSid)
    ∧ tripKey exTripKeyA = tripKey exTripKeyB
    ∧ exTripKeyA.fSoft ≠ exTripKeyB.fSoft
    ∧ tripKey exTripKeyA = "a-b-c"
    ∧ (∀ (trips : List Trip) (k : String),
        mapGet (buildFlightMaps trips).1 k
          = (trips.filter (fun t => !t.fReturn && (tripKey t == k))).getLast?
        ∧ mapGet (buildFlightMaps trips).2 k
          = (trips.filter (fun t => t.fReturn && (tripKey t == k))).getLast?) := by
  refine ⟨fun t1 t2 => Iff.rfl, by decide, by decide, by decide, ?_⟩
  intro trips k
  rw [buildFlightMaps_eq_buildDirMap]
  constructor
  · show mapGet (buildDirMap false trips) k = _
    unfold buildDirMap
    rw [mapGet_foldl_mapSet, List.filter_filter]
    refine congrArg List.getLast? (List.filter_congr ?_)
    intro t _
    cases ht : t.fReturn <;> simp [ht]
  · show mapGet (buildDirMap true trips) k = _
    unfold buildDirMap
    rw [mapGet_foldl_mapSet, List.filter_filter]
    refine congrArg List.getLast? (List.filter_congr ?_)
    intro t _
    cases ht : t.fReturn <;> simp [ht]

/-- Claim C10, witness: on a concrete payload the outbound lookup is the
last outbound record with that key — and with a duplicated key the later
record wins. -/
theorem c10_key_concat_last_wins_witness :
    mapGet (buildFlightMaps [exTripOut, exTripIn, exTripOrphan]).1 "S1-G1"
      = ([exTripOut, exTripIn, exTripOrphan].filter
          (fun t => !t.fReturn && (tripKey t == "S1-G1"))).getLast?
    ∧ mapGet (buildFlightMaps [exTripOut, exTripIn, exTripOrphan]).1 "S1-G1" = some exTripOut
    ∧ mapGet (buildFlightMaps [exTripOut, exTripIntl]).1 "S1-G1" = some exTripIntl :=
  ⟨(c10_key_concat_last_wins.2.2.2.2 [exTripOut, exTripIn, exTripOrphan] "S1-G1").1,
   by decide, by decide⟩

/- ## Claim C1 -/

/-- Claim C1.  For a round-trip search (trip type not `"oneway"`) over a
supplier payload with top-level `success` and `Trips` present, the
normalizer emits an itinerary **iff** some outbound (`fReturn` false) and
some inbound (`fReturn` true) record share the composite `fSoft`/`fGDSid`
key; the number of emitted itineraries equals the cardinality of the
intersection of the outbound and inbound key sets; and every emitted
itinerary's `segments` is exactly `[outbound legs, inbound legs]` for such
a matched pair. -/
theorem c1_round_trip_pairing (resp : IataResponse) (req : PhpRequest)
    (d : IataData) (trips : List Trip)
    (hs : resp.success = true) (hd : resp.data = some d) (hT : d.Trips = some trips)
    (hround : req.triptypename ≠ "oneway") :
    (mapIataLocalToPhpResponse resp req ≠ []
      ↔ ∃ t1 ∈ trips, ∃ t2 ∈ trips,
          t1.fReturn = false ∧ t2.fReturn = true ∧ tripKey t1 = tripKey t2)
    ∧ (mapIataLocalToPhpResponse resp req).length
        = (directionKeys false trips ∩ directionKeys true trips).card
    ∧ (∀ it ∈ mapIataLocalToPhpResponse resp req,
        ∃ t1 ∈ trips, ∃ t2 ∈ trips,
          t1.fReturn = false ∧ t2.fReturn = true ∧ tripKey t1 = tripKey t2
          ∧ it.segments = [createPhpSegmentsIdx t1 req, createPhpSegmentsIdx t2 req]) := by
  rcases resp with ⟨succ, data⟩
  simp only at hs hd
  subst hs
  subst hd
  rcases d with ⟨T⟩
  simp only at hT
  subst hT
  rw [mapResponse_unfold, if_neg hround]
  have hlen := length_pairing_result trips req
  refine ⟨?_, hlen, ?_⟩
  · rw [← directionKeys_inter_nonempty_iff]
    constructor
    · intro hne
      have hpos : 0 < (directionKeys false trips ∩ directionKeys true trips).card := by
        rw [← hlen]
        exact List.length_pos.2 hne
      exact Finset.card_pos.1 hpos
    · intro hnonempty
      intro hnil
      have hzero := hlen
      rw [hnil] at hzero
      simp only [List.length_nil] at hzero
      have hcard := Finset.card_pos.2 hnonempty
      omega
  · intro it hit
    rcases mem_pairing_result trips req it hit with ⟨t1, ⟨ht1, hret1⟩, t2, ⟨ht2, hret2⟩, hkey, hseg⟩
    exact ⟨t1, ht1, t2, ht2, hret1, hret2, hkey, hseg⟩

/-- Claim C1, witness. -/
theorem c1_round_trip_pairing_witness :
    ((mapIataLocalToPhpResponse exResp exReq ≠ []
      ↔ ∃ t1 ∈ [exTripOut, exTripIn, exTripOrphan], ∃ t2 ∈ [exTripOut, exTripIn, exTripOrphan],
          t1.fReturn = false ∧ t2.fReturn = true ∧ tripKey t1 = tripKey t2)
    ∧ (mapIataLocalToPhpResponse exResp exReq).length
        = (directionKeys false [exTripOut, exTripIn, exTripOrphan]
            ∩ directionKeys true [exTripOut, exTripIn, exTripOrphan]).card
    ∧ (∀ it ∈ mapIataLocalToPhpResponse exResp exReq,
        ∃ t1 ∈ [exTripOut, exTripIn, exTripOrphan], ∃ t2 ∈ [exTripOut, exTripIn, exTripOrphan],
          t1.fReturn = false ∧ t2.fReturn = true ∧ tripKey t1 = tripKey t2
          ∧ it.segments = [createPhpSegmentsIdx t1 exReq, createPhpSegmentsIdx t2 exReq]))
    ∧ (mapIataLocalToPhpResponse exResp exReq).length = 1 :=
  ⟨c1_round_trip_pairing exResp exReq { Trips := some [exTripOut, exTripIn, exTripOrphan] }
      [exTripOut, exTripIn, exTripOrphan] rfl rfl rfl (by decide),
   by decide⟩

/- ## Claim C7 -/

/-- Claim C7, counterexample.  The claim says every emitted round-trip
itinerary has both halves non-empty.  The src/index.js pairing keys trips
by `fSoft`/`fGDSid` only and never inspects the built segment lists: a
matched outbound record with an **empty** `fLegs` array yields an emitted
itinerary whose outbound segment list is empty (`[[0, 1]]` below is the
emitted list of per-half segment counts). -/
theorem c7_counterexample :
    (mapIataLocalToPhpResponse exRespNoLegs exReq).map (fun it => it.segments.map List.length)
      = [[0, 1]]
    ∧ ¬ (∀ it ∈ mapIataLocalToPhpResponse exRespNoLegs exReq, ∀ l ∈ it.segments, l ≠ []) := by
  exact ⟨by decide, by decide⟩

/-- Claim C7, amended.  The part_004 revision enforces the invariant
unconditionally: its final filter inspects the built 2-slot segment lists
themselves, so every emitted group has a non-empty slot 0, and a group
classified round-trip (non-empty slot 1) has both slots non-empty —
incomplete groups are discarded entirely.  The src/index.js revision
guarantees the invariant only when every trip record carries at least one
leg: then a one-way itinerary has a single non-empty segment list and a
round-trip itinerary has two non-empty lists; with an empty `fLegs` record
it can emit an empty half (see the counterexample). -/
theorem c7_halves_nonempty :
    (∀ resp : IataResponse, ∀ it ∈ mapIataLocal004 resp,
        it.segments.1 ≠ []
        ∧ (it.segments.2 ≠ [] → it.segments.1 ≠ [] ∧ it.segments.2 ≠ []))
    ∧ (∀ (trips : List Trip) (req : PhpRequest),
        (∀ t ∈ trips, t.fLegs ≠ []) →
        ∀ it ∈ mapIataLocalToPhpResponse { success := true, data := some { Trips := some trips } } req,
          (req.triptypename = "oneway" → ∃ l, it.segments = [l] ∧ l ≠ [])
          ∧ (req.triptypename ≠ "oneway" →
              ∃ l1 l2, it.segments = [l1, l2] ∧ l1 ≠ [] ∧ l2 ≠ [])) := by
  constructor
  · rintro ⟨succ, data⟩ it hit
    cases succ with
    | false => simp [mapIataLocal004] at hit
    | true =>
      cases data with
      | none => simp [mapIataLocal004] at hit
      | some d =>
        rcases d with ⟨T⟩
        cases T with
        | none => simp [mapIataLocal004] at hit
        | some trips =>
          simp only [mapIataLocal004, Bool.not_true, Bool.false_eq_true, if_false] at hit
          have hpred := (List.mem_filter.1 hit).2
          by_cases h2 : 0 < it.segments.2.length
          · rw [if_pos h2] at hpred
            rw [Bool.and_eq_true] at hpred
            rcases hpred with ⟨hp1, hp2⟩
            have hl1 : 0 < it.segments.1.length := of_decide_eq_true hp1
            have hl2 : 0 < it.segments.2.length := of_decide_eq_true hp2
            exact ⟨List.length_pos.1 hl1,
                   fun _ => ⟨List.length_pos.1 hl1, List.length_pos.1 hl2⟩⟩
          · rw [if_neg h2] at hpred
            have hl1 : 0 < it.segments.1.length := of_decide_eq_true hpred
            refine ⟨List.length_pos.1 hl1, fun hne2 => ?_⟩
            exact absurd (List.length_pos.2 hne2) h2
  · intro trips req hlegs it hit
    rw [mapResponse_unfold] at hit
    by_cases ht : req.triptypename = "oneway"
    · rw [if_pos ht] at hit
      rcases List.mem_map.1 hit with ⟨t, htm, rfl⟩
      refine ⟨fun _ => ⟨createPhpSegmentsIdx t req, rfl,
                createPhpSegmentsIdx_ne_nil t req (hlegs t htm)⟩,
              fun hne => absurd ht hne⟩
    · rw [if_neg ht] at hit
      rcases mem_pairing_result trips req it hit with
        ⟨t1, ⟨ht1, _⟩, t2, ⟨ht2, _⟩, _, hseg⟩
      refine ⟨fun h => absurd h ht, fun _ => ?_⟩
      exact ⟨createPhpSegmentsIdx t1 req, createPhpSegmentsIdx t2 req, hseg,
             createPhpSegmentsIdx_ne_nil t1 req (hlegs t1 ht1),
             createPhpSegmentsIdx_ne_nil t2 req (hlegs t2 ht2)⟩

/-- Claim C7, witness. -/
theorem c7_halves_nonempty_witness :
    (∀ it ∈ mapIataLocal004 exResp,
        it.segments.1 ≠ []
        ∧ (it.segments.2 ≠ [] → it.segments.1 ≠ [] ∧ it.segments.2 ≠ []))
    ∧ (∀ it ∈ mapIataLocalToPhpResponse exResp exReq,
        (exReq.triptypename = "oneway" →
            ∃ l, it.segments = [l] ∧ l ≠ [])
        ∧ (exReq.triptypename ≠ "oneway" →
            ∃ l1 l2, it.segments = [l1, l2] ∧ l1 ≠ [] ∧ l2 ≠ [])) :=
  ⟨c7_halves_nonempty.1 exResp,
   c7_halves_nonempty.2 [exTripOut, exTripIn, exTripOrphan] exReq (by decide)⟩

end OtaProxy
